import Mathlib

/-
Verification of the asteroids game core (shallow embedding).

The numeric model: Python float scalars that are only added, subtracted,
multiplied and compared (radii, timers, dt) are embedded as rationals, so
that branch conditions stay decidable; geometric quantities that pass
through trigonometry or square roots (positions, velocities, distances)
are embedded as real numbers.  Randomness is embedded by passing each
random draw as an explicit argument, constrained by the range the Python
random primitive guarantees.
-/

namespace Asteroids

/-! ## Constants (constants.py) -/

def SCREEN_WIDTH : ℚ := 1280

def SCREEN_HEIGHT : ℚ := 720

def ASTEROID_MIN_RADIUS : ℚ := 20

def ASTEROID_KINDS : ℕ := 3

def ASTEROID_SPAWN_RATE : ℚ := 8 / 10

def ASTEROID_MAX_RADIUS : ℚ := ASTEROID_MIN_RADIUS * ASTEROID_KINDS

def PLAYER_RADIUS : ℚ := 20

def PLAYER_TURN_SPEED : ℚ := 300

def PLAYER_SPEED : ℚ := 200

def SHOT_RADIUS : ℚ := 5

def PLAYER_SHOT_SPEED : ℝ := 500

def PLAYER_SHOT_COOLDOWN : ℚ := 3 / 10

/-! ## 2D vectors (pygame.Vector2, the external vector capability) -/

@[ext]
structure Vec2 where
  x : ℝ
  y : ℝ

noncomputable instance : Add Vec2 :=
  ⟨fun a b => ⟨a.x + b.x, a.y + b.y⟩⟩

/-- `v * c`: scaling a vector by a scalar. -/
noncomputable def Vec2.smul (v : Vec2) (c : ℝ) : Vec2 :=
  ⟨v.x * c, v.y * c⟩

/-- `pygame.Vector2.rotate(deg)`: rotation by an angle given in degrees. -/
noncomputable def Vec2.rotate (v : Vec2) (deg : ℝ) : Vec2 :=
  ⟨v.x * Real.cos (deg * Real.pi / 180) - v.y * Real.sin (deg * Real.pi / 180),
   v.x * Real.sin (deg * Real.pi / 180) + v.y * Real.cos (deg * Real.pi / 180)⟩

/-- Euclidean length of a vector. -/
noncomputable def Vec2.norm (v : Vec2) : ℝ :=
  Real.sqrt (v.x ^ 2 + v.y ^ 2)

/-- `pygame.Vector2.distance_to`: Euclidean distance between two points. -/
noncomputable def distance_to (p q : Vec2) : ℝ :=
  Real.sqrt ((q.x - p.x) ^ 2 + (q.y - p.y) ^ 2)

@[simp]
theorem add_x (a b : Vec2) : (a + b).x = a.x + b.x := rfl

@[simp]
theorem add_y (a b : Vec2) : (a + b).y = a.y + b.y := rfl

/-! ## CircleShape (circleshape.py)

`CircleShape.__init__(x, y, radius)` sets `position := (x, y)`,
`velocity := (0, 0)` and `radius`.  `Asteroid` and `Shot` add no fields. -/

structure CircleShape where
  position : Vec2
  velocity : Vec2
  radius : ℚ

/-- `CircleShape.does_collide(other)` (circleshape.py lines 74-87):
the distance between the centers is strictly below the sum of the radii. -/
noncomputable def does_collide (self other : CircleShape) : Prop :=
  distance_to self.position other.position < ((self.radius + other.radius : ℚ) : ℝ)

noncomputable instance (a b : CircleShape) : Decidable (does_collide a b) :=
  inferInstanceAs
    (Decidable (distance_to a.position b.position < ((a.radius + b.radius : ℚ) : ℝ)))

/-! ## Asteroid (asteroid.py) -/

/-- `Asteroid.update(dt)` (asteroid.py lines 48-56):
`self.position += self.velocity * dt`. -/
noncomputable def Asteroid.update (self : CircleShape) (dt : ℚ) : CircleShape :=
  { self with position := self.position + self.velocity.smul (dt : ℝ) }

/-- Result of `Asteroid.split()`: whether the asteroid the method ran on is
still live afterwards, and the list of newly constructed asteroids. -/
structure SplitResult where
  parentAlive : Bool
  children : List CircleShape

/-- `Asteroid.split()` (asteroid.py lines 58-84), with the single random draw
`random.uniform(20, 50)` passed in as `random_angle`.  Note the branch
condition in the source is the strict `self.radius < ASTEROID_MIN_RADIUS`. -/
noncomputable def Asteroid.split (self : CircleShape) (random_angle : ℝ) : SplitResult :=
  if self.radius < ASTEROID_MIN_RADIUS then
    { parentAlive := false, children := [] }
  else
    let new_velocity_1 := self.velocity.rotate random_angle
    let new_velocity_2 := self.velocity.rotate (-random_angle)
    let new_radius := self.radius - ASTEROID_MIN_RADIUS
    { parentAlive := false,
      children :=
        [ { position := self.position, velocity := new_velocity_1, radius := new_radius },
          { position := self.position, velocity := new_velocity_2, radius := new_radius } ] }

/-! ## Shot (shot.py) -/

/-- `Shot.update(dt)` (shot.py lines 68-80):
`self.position += self.velocity * dt`. -/
noncomputable def Shot.update (self : CircleShape) (dt : ℚ) : CircleShape :=
  { self with position := self.position + self.velocity.smul (dt : ℝ) }

/-! ## Player (player.py) -/

structure Player where
  position : Vec2
  velocity : Vec2
  radius : ℚ
  rotation : ℝ
  shot_timer : ℚ

/-- Result of `Player.shoot(dt)`: the player afterwards and the list of newly
constructed shots. -/
structure ShootResult where
  player : Player
  shots : List CircleShape

/-- `Player.shoot(dt)` (player.py lines 184-211): while `shot_timer > 0` the
timer is decremented by `dt` and nothing else happens; otherwise a `Shot` is
constructed at the player's position, its velocity is set to
`Vector2(0, 1).rotate(rotation) * PLAYER_SHOT_SPEED`, and the timer is reset
to `PLAYER_SHOT_COOLDOWN`. -/
noncomputable def Player.shoot (self : Player) (dt : ℚ) : ShootResult :=
  if self.shot_timer > 0 then
    { player := { self with shot_timer := self.shot_timer - dt }, shots := [] }
  else
    { player := { self with shot_timer := PLAYER_SHOT_COOLDOWN },
      shots :=
        [ { position := self.position,
            velocity := (Vec2.rotate ⟨0, 1⟩ self.rotation).smul PLAYER_SHOT_SPEED,
            radius := SHOT_RADIUS } ] }

/-! ## AsteroidField (asteroidfield.py) -/

structure AsteroidField where
  spawn_timer : ℚ

/-- The random draws one spawn consumes (asteroidfield.py lines 131-142):
`random.choice(self.edges)`, `random.randint(40, 100)`,
`random.randint(-30, 30)`, `random.uniform(0, 1)`,
`random.randint(1, ASTEROID_KINDS)`. -/
structure SpawnDraws where
  edge : Fin 4
  speed : ℤ
  rot_angle : ℤ
  offset : ℚ
  kind : ℕ

/-- The ranges the Python random primitives guarantee for the draws. -/
def SpawnDraws.Valid (d : SpawnDraws) : Prop :=
  40 ≤ d.speed ∧ d.speed ≤ 100 ∧ -30 ≤ d.rot_angle ∧ d.rot_angle ≤ 30 ∧
    0 ≤ d.offset ∧ d.offset ≤ 1 ∧ 1 ≤ d.kind ∧ d.kind ≤ ASTEROID_KINDS

/-- First components of the `edges` table (asteroidfield.py lines 36-81):
outward direction vectors. -/
noncomputable def edge_direction (e : Fin 4) : Vec2 :=
  match e with
  | 0 => ⟨1, 0⟩
  | 1 => ⟨-1, 0⟩
  | 2 => ⟨0, 1⟩
  | 3 => ⟨0, -1⟩

/-- Second components of the `edges` table (asteroidfield.py lines 36-81):
parametric spawn positions along each edge. -/
noncomputable def edge_position (e : Fin 4) (t : ℚ) : Vec2 :=
  match e with
  | 0 => ⟨-(ASTEROID_MAX_RADIUS : ℝ), (t : ℝ) * (SCREEN_HEIGHT : ℝ)⟩
  | 1 => ⟨(SCREEN_WIDTH : ℝ) + (ASTEROID_MAX_RADIUS : ℝ), (t : ℝ) * (SCREEN_HEIGHT : ℝ)⟩
  | 2 => ⟨(t : ℝ) * (SCREEN_WIDTH : ℝ), -(ASTEROID_MAX_RADIUS : ℝ)⟩
  | 3 => ⟨(t : ℝ) * (SCREEN_WIDTH : ℝ), (SCREEN_HEIGHT : ℝ) + (ASTEROID_MAX_RADIUS : ℝ)⟩

/-- `AsteroidField.spawn(radius, position, velocity)` (asteroidfield.py
lines 100-113): constructs an asteroid and sets its velocity. -/
noncomputable def AsteroidField.spawn (radius : ℚ) (position velocity : Vec2) : CircleShape :=
  { position := position, velocity := velocity, radius := radius }

/-- `AsteroidField.update(dt)` (asteroidfield.py lines 115-144), with the
random draws passed in.  Returns the field afterwards and the list of newly
spawned asteroids. -/
noncomputable def AsteroidField.update (self : AsteroidField) (dt : ℚ) (d : SpawnDraws) :
    AsteroidField × List CircleShape :=
  let timer := self.spawn_timer + dt
  if timer > ASTEROID_SPAWN_RATE then
    let velocity := ((edge_direction d.edge).smul ((d.speed : ℤ) : ℝ)).rotate ((d.rot_angle : ℤ) : ℝ)
    let position := edge_position d.edge d.offset
    ({ spawn_timer := 0 },
      [AsteroidField.spawn (ASTEROID_MIN_RADIUS * d.kind) position velocity])
  else
    ({ spawn_timer := timer }, [])

/-! ## The collision pass of the main loop (main.py lines 93-100)

Sprite groups are embedded as lists of id-tagged entities; `kill()` removes
an entity from its groups by identity, which the tags stand for — ids are
allocated from `next_id`, so they are fresh as long as every live id is
below `next_id`.  A `for` loop over a pygame group iterates over a copy of
the group's sprite list taken when the loop starts, so the outer loop runs
over the asteroid group as it was at the start of the pass, while each inner
loop runs over the shot group as it is when that asteroid is reached. -/

structure WEnt where
  id : ℕ
  shape : CircleShape

structure World where
  asteroids : List WEnt
  shots : List WEnt
  next_id : ℕ
  angle_index : ℕ
  game_over : Bool

/-- Tag freshly constructed children with consecutive fresh ids. -/
def tag_children (n : ℕ) : List CircleShape → List WEnt
  | [] => []
  | c :: cs => ⟨n, c⟩ :: tag_children (n + 1) cs

/-- Effect of `sprite.split()` on the groups: the sprite is removed from the
asteroid group (`kill()`), and the children construct themselves into it.
The split consumes one angle draw exactly when it takes the else branch. -/
noncomputable def World.do_split (angles : ℕ → ℝ) (w : World) (a : WEnt) : World :=
  let res := Asteroid.split a.shape (angles w.angle_index)
  { w with
    asteroids := (w.asteroids.filter fun e => e.id ≠ a.id) ++ tag_children w.next_id res.children,
    next_id := w.next_id + res.children.length,
    angle_index := w.angle_index + (if a.shape.radius < ASTEROID_MIN_RADIUS then 0 else 1) }

/-- Effect of `shot.kill()` on the groups. -/
def World.kill_shot (w : World) (s : WEnt) : World :=
  { w with shots := w.shots.filter fun e => e.id ≠ s.id }

/-- The inner loop of main.py lines 97-100 for one asteroid `a`: for each
shot of the snapshot, if it overlaps `a` then `a.split()` and the shot is
killed.  The source has no break and rechecks nothing, so `a` keeps being
tested against the remaining shots even after it was killed. -/
noncomputable def process_shots (angles : ℕ → ℝ) (a : WEnt) : List WEnt → World → World
  | [], w => w
  | s :: rest, w =>
    if does_collide a.shape s.shape then
      process_shots angles a rest ((w.do_split angles a).kill_shot s)
    else
      process_shots angles a rest w

/-- The outer loop of main.py lines 93-100: each asteroid of the snapshot is
tested against the player (`exit()` on overlap, embedded as the terminal
`game_over` state), then against the current shot group. -/
noncomputable def process_asteroids (angles : ℕ → ℝ) (pl : CircleShape) :
    List WEnt → World → World
  | [], w => w
  | a :: rest, w =>
    if does_collide a.shape pl then
      { w with game_over := true }
    else
      process_asteroids angles pl rest (process_shots angles a w.shots w)

/-- One frame's collision pass (main.py lines 93-100). -/
noncomputable def collision_pass (angles : ℕ → ℝ) (pl : CircleShape) (w : World) : World :=
  process_asteroids angles pl w.asteroids w

/-! ## Repeated splitting, projected to radii

Which children a split produces, and the radii they get, depend only on the
parent's radius, so repeated splitting is tracked on radii. -/

/-- The radii of the children `Asteroid.split()` produces from radius `r`. -/
noncomputable def split_radii (r : ℚ) : List ℚ :=
  (Asteroid.split { position := ⟨0, 0⟩, velocity := ⟨0, 0⟩, radius := r } 0).children.map
    fun c => c.radius

/-- `n` generations of hitting every asteroid of the population once. -/
noncomputable def split_generations : ℕ → List ℚ → List ℚ
  | 0, rs => rs
  | n + 1, rs => split_generations n (rs.flatMap split_radii)

/-! ## The update phase of the main loop (main.py lines 89-90) -/

/-- `for sprite in updatable: sprite.update(dt)`, restricted to the asteroid
group: updating creates and destroys nothing, it maps `update` over the
population. -/
noncomputable def update_all_asteroids (xs : List CircleShape) (dt : ℚ) : List CircleShape :=
  xs.map fun a => Asteroid.update a dt

/-- `for sprite in updatable: sprite.update(dt)`, restricted to the shot
group. -/
noncomputable def update_all_shots (xs : List CircleShape) (dt : ℚ) : List CircleShape :=
  xs.map fun s => Shot.update s dt

/-! ## A concrete frame for the collision pass

A single radius-60 asteroid sitting at the origin, two shots also at the
origin, and the player far away at (1000, 0). -/

noncomputable def c5_player : CircleShape :=
  { position := ⟨1000, 0⟩, velocity := ⟨0, 0⟩, radius := PLAYER_RADIUS }

noncomputable def c5_asteroid : WEnt :=
  ⟨0, { position := ⟨0, 0⟩, velocity := ⟨0, 0⟩, radius := 60 }⟩

noncomputable def c5_shot1 : WEnt :=
  ⟨10, { position := ⟨0, 0⟩, velocity := ⟨0, 0⟩, radius := SHOT_RADIUS }⟩

noncomputable def c5_shot2 : WEnt :=
  ⟨11, { position := ⟨0, 0⟩, velocity := ⟨0, 0⟩, radius := SHOT_RADIUS }⟩

noncomputable def c5_world : World :=
  ⟨[c5_asteroid], [c5_shot1, c5_shot2], 1, 0, false⟩

/-! ## Helper lemmas -/

/-- What `split()` does to radii: kill below the strict minimum bound,
otherwise two children with the parent's radius reduced by the minimum. -/
theorem split_radii_eq (r : ℚ) :
    split_radii r =
      if r < ASTEROID_MIN_RADIUS then []
      else [r - ASTEROID_MIN_RADIUS, r - ASTEROID_MIN_RADIUS] := by
  by_cases h : r < ASTEROID_MIN_RADIUS <;> simp [split_radii, Asteroid.split, h]

/-- Rotation preserves the Euclidean length. -/
theorem Vec2.norm_rotate (v : Vec2) (deg : ℝ) : (v.rotate deg).norm = v.norm := by
  unfold Vec2.rotate Vec2.norm
  have h :
      (v.x * Real.cos (deg * Real.pi / 180) - v.y * Real.sin (deg * Real.pi / 180)) ^ 2 +
        (v.x * Real.sin (deg * Real.pi / 180) + v.y * Real.cos (deg * Real.pi / 180)) ^ 2 =
      (v.x ^ 2 + v.y ^ 2) *
        (Real.sin (deg * Real.pi / 180) ^ 2 + Real.cos (deg * Real.pi / 180) ^ 2) := by
    ring
  rw [h, Real.sin_sq_add_cos_sq, mul_one]

/-- An edge direction vector scaled by a nonnegative speed has that speed as
its length. -/
theorem edge_smul_norm (e : Fin 4) (s : ℝ) (hs : 0 ≤ s) :
    ((edge_direction e).smul s).norm = s := by
  fin_cases e <;> norm_num [edge_direction, Vec2.smul, Vec2.norm, neg_sq] <;>
    exact Real.sqrt_sq hs

/-- Distance from the origin to a point on the nonnegative x-axis. -/
theorem distance_on_x (d : ℝ) (hd : 0 ≤ d) : distance_to ⟨0, 0⟩ ⟨d, 0⟩ = d := by
  unfold distance_to
  rw [show (d - 0) ^ 2 + ((0 : ℝ) - 0) ^ 2 = d ^ 2 by ring, Real.sqrt_sq hd]

/-- Euclidean distance is symmetric. -/
theorem distance_to_comm (p q : Vec2) : distance_to p q = distance_to q p := by
  unfold distance_to
  congr 1
  ring

/-- Evaluation of one collision pass on a world holding one asteroid that is
at or above the minimum radius and two shots that both overlap it, with the
player out of reach: the asteroid is split once per overlapping shot, so four
children exist afterwards, and both shots are killed. -/
theorem double_hit_pass (angles : ℕ → ℝ) (pl : CircleShape) (a s1 s2 : WEnt) (n i : ℕ)
    (hpl : ¬ does_collide a.shape pl)
    (h1 : does_collide a.shape s1.shape)
    (h2 : does_collide a.shape s2.shape)
    (hr : ¬ a.shape.radius < ASTEROID_MIN_RADIUS)
    (hid : a.id < n) :
    ((collision_pass angles pl ⟨[a], [s1, s2], n, i, false⟩).asteroids.map
        fun e => e.shape.radius) =
      [a.shape.radius - ASTEROID_MIN_RADIUS, a.shape.radius - ASTEROID_MIN_RADIUS,
       a.shape.radius - ASTEROID_MIN_RADIUS, a.shape.radius - ASTEROID_MIN_RADIUS] ∧
    (collision_pass angles pl ⟨[a], [s1, s2], n, i, false⟩).shots = [] ∧
    (collision_pass angles pl ⟨[a], [s1, s2], n, i, false⟩).game_over = false := by
  have e1 : ¬ n = a.id := fun h => absurd (h ▸ hid) (lt_irrefl _)
  have e2 : ¬ n + 1 = a.id := fun h => absurd (h ▸ hid) (by omega)
  refine ⟨?_, ?_, ?_⟩ <;>
    simp [collision_pass, process_asteroids, process_shots, World.do_split, World.kill_shot,
      Asteroid.split, tag_children, hpl, h1, h2, hr, e1, e2]

theorem c5_not_hit_player : ¬ does_collide c5_asteroid.shape c5_player := by
  unfold does_collide c5_asteroid c5_player
  rw [show ({ position := ⟨0, 0⟩, velocity := ⟨0, 0⟩, radius := 60 } : CircleShape).position
      = (⟨0, 0⟩ : Vec2) from rfl]
  norm_num [distance_on_x 1000 (by norm_num : (0 : ℝ) ≤ 1000), PLAYER_RADIUS]

theorem c5_hit_shot1 : does_collide c5_asteroid.shape c5_shot1.shape := by
  unfold does_collide c5_asteroid c5_shot1
  norm_num [distance_on_x 0 le_rfl, SHOT_RADIUS]

theorem c5_hit_shot2 : does_collide c5_asteroid.shape c5_shot2.shape := by
  unfold does_collide c5_asteroid c5_shot2
  norm_num [distance_on_x 0 le_rfl, SHOT_RADIUS]

/-! ## The claims -/

/-- C1: the claim says that for radius ≤ ASTEROID_MIN_RADIUS, `split()`
destroys the asteroid and creates zero children, in particular at radius
exactly ASTEROID_MIN_RADIUS.  The source (asteroid.py line 66) tests the
strict `radius < ASTEROID_MIN_RADIUS`, so evaluating the embedded split at
the boundary radius ASTEROID_MIN_RADIUS kills the asteroid but constructs
two children, of radius 0 — the code contradicts its own docstring, which
says "less than or equal to". -/
theorem C1_min_radius_split_code_eval :
    (Asteroid.split ⟨⟨0, 0⟩, ⟨0, 0⟩, ASTEROID_MIN_RADIUS⟩ 30).parentAlive = false ∧
    (Asteroid.split ⟨⟨0, 0⟩, ⟨0, 0⟩, ASTEROID_MIN_RADIUS⟩ 30).children.length = 2 ∧
    ((Asteroid.split ⟨⟨0, 0⟩, ⟨0, 0⟩, ASTEROID_MIN_RADIUS⟩ 30).children.map
        fun c => c.radius) = [0, 0] := by
  have h : ¬ (ASTEROID_MIN_RADIUS < ASTEROID_MIN_RADIUS) := lt_irrefl _
  refine ⟨?_, ?_, ?_⟩ <;> norm_num [Asteroid.split, h, ASTEROID_MIN_RADIUS]

/-- C2: the claim states the invariant that every live asteroid's radius is
ASTEROID_MIN_RADIUS * k for a positive integer k, and that a split destroys
the asteroid with no children when k would reach 0.  Evaluating the embedded
split on a kind-1 asteroid (radius ASTEROID_MIN_RADIUS * 1, exactly what the
spawner creates for kind 1): the code creates two live children of radius 0,
and 0 is not ASTEROID_MIN_RADIUS * k for any positive integer k, so the
invariant does not survive a split of a kind-1 asteroid. -/
theorem C2_invariant_violation_code_eval :
    ((Asteroid.split ⟨⟨0, 0⟩, ⟨0, 0⟩, ASTEROID_MIN_RADIUS * 1⟩ 30).children.map
        fun c => c.radius) = [0, 0] ∧
    ¬ ∃ k : ℕ, 0 < k ∧ (0 : ℚ) = ASTEROID_MIN_RADIUS * k := by
  constructor
  · have h : ¬ (ASTEROID_MIN_RADIUS * 1 < ASTEROID_MIN_RADIUS) := by
      norm_num
    norm_num [Asteroid.split, h, ASTEROID_MIN_RADIUS]
  · rintro ⟨k, hk, he⟩
    rw [ASTEROID_MIN_RADIUS] at he
    have hc : (k : ℚ) = 0 := by linarith
    exact absurd (Nat.cast_eq_zero.mp hc) (Nat.pos_iff_ne_zero.mp hk)

/-- C3: the claim says repeated splitting from kind k dies out after at most
ASTEROID_KINDS generations, with the depth-(k-1) leaves (radius exactly
ASTEROID_MIN_RADIUS) destroyed with no children when hit again.  Evaluating
the embedded split generations from a kind-3 asteroid (radius 60): the first
two generations are as the claim's scenario says, but the radius-20
generation is split into eight radius-0 children instead of being destroyed
outright, so the population is still nonempty after ASTEROID_KINDS = 3
generations and only dies out after 4. -/
theorem C3_generations_code_eval :
    split_generations 1 [ASTEROID_MIN_RADIUS * 3] = [40, 40] ∧
    split_generations 2 [ASTEROID_MIN_RADIUS * 3] = [20, 20, 20, 20] ∧
    split_generations 3 [ASTEROID_MIN_RADIUS * 3] = [0, 0, 0, 0, 0, 0, 0, 0] ∧
    split_generations ASTEROID_KINDS [ASTEROID_MIN_RADIUS * 3] ≠ [] ∧
    split_generations 4 [ASTEROID_MIN_RADIUS * 3] = [] := by
  have h3 : split_generations 3 [ASTEROID_MIN_RADIUS * 3] = [0, 0, 0, 0, 0, 0, 0, 0] := by
    norm_num [split_generations, split_radii_eq, ASTEROID_MIN_RADIUS]
  have hne : split_generations ASTEROID_KINDS [ASTEROID_MIN_RADIUS * 3] ≠ [] := by
    rw [show ASTEROID_KINDS = 3 from rfl, h3]
    simp
  refine ⟨?_, ?_, h3, hne, ?_⟩ <;>
    norm_num [split_generations, split_radii_eq, ASTEROID_MIN_RADIUS]

/-- C4: for an asteroid with radius strictly above ASTEROID_MIN_RADIUS and a
drawn angle θ in [20, 50] degrees, `split()` kills the original and creates
exactly two children at the pre-split position with radius reduced by
ASTEROID_MIN_RADIUS and velocities the pre-split velocity rotated by +θ and
by −θ for a single θ in [20, 50]. -/
theorem C4_split_above_min (a : CircleShape) (θ : ℝ)
    (hr : ASTEROID_MIN_RADIUS < a.radius) (h1 : (20 : ℝ) ≤ θ) (h2 : θ ≤ 50) :
    (Asteroid.split a θ).parentAlive = false ∧
    ∃ θ2 : ℝ, 20 ≤ θ2 ∧ θ2 ≤ 50 ∧
      (Asteroid.split a θ).children =
        [ { position := a.position, velocity := a.velocity.rotate θ2,
            radius := a.radius - ASTEROID_MIN_RADIUS },
          { position := a.position, velocity := a.velocity.rotate (-θ2),
            radius := a.radius - ASTEROID_MIN_RADIUS } ] := by
  have hnot : ¬ a.radius < ASTEROID_MIN_RADIUS := not_lt.mpr (le_of_lt hr)
  exact ⟨by simp [Asteroid.split, hnot], θ, h1, h2, by simp [Asteroid.split, hnot]⟩

/-- C4, witnessed on a radius-60 asteroid at (1, 2) with velocity (3, 4) and
the drawn angle 30. -/
theorem C4_split_above_min_witness :
    (Asteroid.split ⟨⟨1, 2⟩, ⟨3, 4⟩, 60⟩ 30).parentAlive = false ∧
    ∃ θ2 : ℝ, 20 ≤ θ2 ∧ θ2 ≤ 50 ∧
      (Asteroid.split ⟨⟨1, 2⟩, ⟨3, 4⟩, 60⟩ 30).children =
        [ { position := ⟨1, 2⟩, velocity := Vec2.rotate ⟨3, 4⟩ θ2,
            radius := 60 - ASTEROID_MIN_RADIUS },
          { position := ⟨1, 2⟩, velocity := Vec2.rotate ⟨3, 4⟩ (-θ2),
            radius := 60 - ASTEROID_MIN_RADIUS } ] :=
  C4_split_above_min ⟨⟨1, 2⟩, ⟨3, 4⟩, 60⟩ 30
    (by norm_num [ASTEROID_MIN_RADIUS]) (by norm_num) (by norm_num)

/-- C5 counterexample: the claim says that within one frame's collision pass
an asteroid matched by one projectile is treated as gone for the remaining
projectile checks, so `split()` is never invoked twice on it and it never
produces more than two children.  In the embedded pass from main.py lines
93-100 (which has no break, and keeps testing the loop's asteroid object
after its `kill()`), a world with exactly one radius-60 asteroid and two
overlapping shots ends the frame with four live radius-40 children. -/
theorem C5_single_match_counterexample :
    c5_world.asteroids = [c5_asteroid] ∧
    ((collision_pass (fun _ => 30) c5_player c5_world).asteroids.map
        fun e => e.shape.radius) = [40, 40, 40, 40] ∧
    ¬ (collision_pass (fun _ => 30) c5_player c5_world).asteroids.length ≤ 2 := by
  have h := double_hit_pass (fun _ => 30) c5_player c5_asteroid c5_shot1 c5_shot2 1 0
    c5_not_hit_player c5_hit_shot1 c5_hit_shot2
    (by norm_num [c5_asteroid, ASTEROID_MIN_RADIUS]) (by norm_num [c5_asteroid])
  have hw : c5_world = ⟨[c5_asteroid], [c5_shot1, c5_shot2], 1, 0, false⟩ := rfl
  have hmap : ((collision_pass (fun _ => 30) c5_player c5_world).asteroids.map
      fun e => e.shape.radius) = [40, 40, 40, 40] := by
    rw [hw, h.1]
    norm_num [c5_asteroid, ASTEROID_MIN_RADIUS]
  refine ⟨rfl, hmap, fun hle => ?_⟩
  have : (collision_pass (fun _ => 30) c5_player c5_world).asteroids.length = 4 := by
    have := congrArg List.length hmap
    simpa using this
  omega

/-- C5 amended: within one frame's collision pass, the first projectile that
matches an asteroid splits it and is destroyed, but the killed asteroid is
not treated as gone for the remaining projectile checks of that frame: each
further projectile overlapping it splits it again, so an asteroid at or
above the minimum radius that overlaps two projectiles produces four
children (two per matching projectile) in a single pass, while both
projectiles are destroyed. -/
theorem C5_double_split_amended (angles : ℕ → ℝ) (pl : CircleShape)
    (a s1 s2 : WEnt) (n i : ℕ)
    (hpl : ¬ does_collide a.shape pl)
    (h1 : does_collide a.shape s1.shape)
    (h2 : does_collide a.shape s2.shape)
    (hr : ASTEROID_MIN_RADIUS ≤ a.shape.radius)
    (hid : a.id < n) :
    ((collision_pass angles pl ⟨[a], [s1, s2], n, i, false⟩).asteroids.map
        fun e => e.shape.radius) =
      [a.shape.radius - ASTEROID_MIN_RADIUS, a.shape.radius - ASTEROID_MIN_RADIUS,
       a.shape.radius - ASTEROID_MIN_RADIUS, a.shape.radius - ASTEROID_MIN_RADIUS] ∧
    (collision_pass angles pl ⟨[a], [s1, s2], n, i, false⟩).asteroids.length = 4 ∧
    (collision_pass angles pl ⟨[a], [s1, s2], n, i, false⟩).shots = [] := by
  have h := double_hit_pass angles pl a s1 s2 n i hpl h1 h2 (not_lt.mpr hr) hid
  refine ⟨h.1, ?_, h.2.1⟩
  have := congrArg List.length h.1
  simpa using this

/-- C5 amended, witnessed on the concrete world of one radius-60 asteroid
and two overlapping shots. -/
theorem C5_double_split_amended_witness :
    ((collision_pass (fun _ => 30) c5_player
        ⟨[c5_asteroid], [c5_shot1, c5_shot2], 1, 0, false⟩).asteroids.map
        fun e => e.shape.radius) =
      [c5_asteroid.shape.radius - ASTEROID_MIN_RADIUS,
       c5_asteroid.shape.radius - ASTEROID_MIN_RADIUS,
       c5_asteroid.shape.radius - ASTEROID_MIN_RADIUS,
       c5_asteroid.shape.radius - ASTEROID_MIN_RADIUS] ∧
    (collision_pass (fun _ => 30) c5_player
        ⟨[c5_asteroid], [c5_shot1, c5_shot2], 1, 0, false⟩).asteroids.length = 4 ∧
    (collision_pass (fun _ => 30) c5_player
        ⟨[c5_asteroid], [c5_shot1, c5_shot2], 1, 0, false⟩).shots = [] :=
  C5_double_split_amended (fun _ => 30) c5_player c5_asteroid c5_shot1 c5_shot2 1 0
    c5_not_hit_player c5_hit_shot1 c5_hit_shot2
    (by norm_num [c5_asteroid, ASTEROID_MIN_RADIUS]) (by norm_num [c5_asteroid])

/-- C6 counterexample: the claim says that when the cooldown is positive the
fire call leaves it "unchanged in sign" while decreasing it by dt.  With
shot_timer = 1/10 and dt = 2/10 the embedded `Player.shoot` leaves the timer
at -1/10: the sign flips from positive to negative, because the code
decrements without clamping at zero. -/
theorem C6_cooldown_sign_counterexample :
    0 < (Player.mk ⟨0, 0⟩ ⟨0, 0⟩ PLAYER_RADIUS 0 (1 / 10)).shot_timer ∧
    ((Player.mk ⟨0, 0⟩ ⟨0, 0⟩ PLAYER_RADIUS 0 (1 / 10)).shoot (2 / 10)).player.shot_timer
      < 0 := by
  constructor
  · norm_num
  · norm_num [Player.shoot]

/-- C6 amended: for every call of `Player.shoot(dt)`: if shot_timer > 0 at
call time, no shot is created, the timer decreases by exactly dt (which may
take it to zero or below when dt is at least the remaining cooldown, so its
sign is not preserved in general), and all other player state is untouched;
otherwise exactly one shot is created at the player's position with velocity
the unit up-vector rotated by the player's rotation times PLAYER_SHOT_SPEED,
the rest of the player state is untouched, and the timer is reset to
PLAYER_SHOT_COOLDOWN. -/
theorem C6_shoot_amended (p : Player) (dt : ℚ) :
    (0 < p.shot_timer →
      (p.shoot dt).shots = [] ∧
      (p.shoot dt).player.position = p.position ∧
      (p.shoot dt).player.velocity = p.velocity ∧
      (p.shoot dt).player.radius = p.radius ∧
      (p.shoot dt).player.rotation = p.rotation ∧
      (p.shoot dt).player.shot_timer = p.shot_timer - dt) ∧
    (¬ 0 < p.shot_timer →
      (p.shoot dt).shots =
        [ { position := p.position,
            velocity := (Vec2.rotate ⟨0, 1⟩ p.rotation).smul PLAYER_SHOT_SPEED,
            radius := SHOT_RADIUS } ] ∧
      (p.shoot dt).player.position = p.position ∧
      (p.shoot dt).player.velocity = p.velocity ∧
      (p.shoot dt).player.radius = p.radius ∧
      (p.shoot dt).player.rotation = p.rotation ∧
      (p.shoot dt).player.shot_timer = PLAYER_SHOT_COOLDOWN) := by
  constructor <;> intro h <;> simp [Player.shoot, h]

/-- C6 amended, witnessed on a player with a running cooldown of 3/10 and a
frame time of 1/60. -/
theorem C6_shoot_amended_witness :
    ((Player.mk ⟨0, 0⟩ ⟨0, 0⟩ PLAYER_RADIUS 0 (3 / 10)).shoot (1 / 60)).shots = [] ∧
    ((Player.mk ⟨0, 0⟩ ⟨0, 0⟩ PLAYER_RADIUS 0 (3 / 10)).shoot (1 / 60)).player.position
      = ⟨0, 0⟩ ∧
    ((Player.mk ⟨0, 0⟩ ⟨0, 0⟩ PLAYER_RADIUS 0 (3 / 10)).shoot (1 / 60)).player.velocity
      = ⟨0, 0⟩ ∧
    ((Player.mk ⟨0, 0⟩ ⟨0, 0⟩ PLAYER_RADIUS 0 (3 / 10)).shoot (1 / 60)).player.radius
      = PLAYER_RADIUS ∧
    ((Player.mk ⟨0, 0⟩ ⟨0, 0⟩ PLAYER_RADIUS 0 (3 / 10)).shoot (1 / 60)).player.rotation
      = 0 ∧
    ((Player.mk ⟨0, 0⟩ ⟨0, 0⟩ PLAYER_RADIUS 0 (3 / 10)).shoot (1 / 60)).player.shot_timer
      = 3 / 10 - 1 / 60 :=
  (C6_shoot_amended (Player.mk ⟨0, 0⟩ ⟨0, 0⟩ PLAYER_RADIUS 0 (3 / 10)) (1 / 60)).1
    (by norm_num)

/-- C7: each `AsteroidField.update(dt)` adds dt to the spawn timer; while the
accumulated timer does not exceed ASTEROID_SPAWN_RATE nothing is spawned and
the timer keeps the accumulated value; once it exceeds the rate, the timer
resets to 0 and exactly one asteroid is spawned, with radius
ASTEROID_MIN_RADIUS * kind for an integer kind in [1, ASTEROID_KINDS] and
speed (the length of its velocity) in [40, 100]. -/
theorem C7_spawn_update (f : AsteroidField) (dt : ℚ) (d : SpawnDraws) (hd : d.Valid) :
    (¬ f.spawn_timer + dt > ASTEROID_SPAWN_RATE →
      AsteroidField.update f dt d = ({ spawn_timer := f.spawn_timer + dt }, [])) ∧
    (f.spawn_timer + dt > ASTEROID_SPAWN_RATE →
      (AsteroidField.update f dt d).1.spawn_timer = 0 ∧
      ∃ a : CircleShape, (AsteroidField.update f dt d).2 = [a] ∧
        (∃ k : ℕ, 1 ≤ k ∧ k ≤ ASTEROID_KINDS ∧ a.radius = ASTEROID_MIN_RADIUS * k) ∧
        40 ≤ a.velocity.norm ∧ a.velocity.norm ≤ 100) := by
  obtain ⟨h40, h100, _, _, _, _, hk1, hk3⟩ := hd
  constructor
  · intro h
    simp [AsteroidField.update, h]
  · intro h
    refine ⟨by simp [AsteroidField.update, h], ?_⟩
    refine ⟨{ position := edge_position d.edge d.offset,
              velocity :=
                ((edge_direction d.edge).smul ((d.speed : ℤ) : ℝ)).rotate
                  ((d.rot_angle : ℤ) : ℝ),
              radius := ASTEROID_MIN_RADIUS * d.kind },
            by simp [AsteroidField.update, h, AsteroidField.spawn],
            ⟨d.kind, hk1, hk3, rfl⟩, ?_, ?_⟩ <;>
      rw [Vec2.norm_rotate,
        edge_smul_norm _ _ (by exact_mod_cast le_trans (by norm_num) h40)]
    · exact_mod_cast h40
    · exact_mod_cast h100

/-- C7, witnessed on a field whose timer stands at 7/10 updated with
dt = 2/10 (so the accumulated 9/10 exceeds the 8/10 spawn rate), with draws:
edge 0, speed 40, deflection 0, offset 1/2, kind 2. -/
theorem C7_spawn_update_witness :
    (¬ (7 / 10 : ℚ) + 2 / 10 > ASTEROID_SPAWN_RATE →
      AsteroidField.update ⟨7 / 10⟩ (2 / 10) ⟨0, 40, 0, 1 / 2, 2⟩ =
        ({ spawn_timer := (7 / 10 : ℚ) + 2 / 10 }, [])) ∧
    ((7 / 10 : ℚ) + 2 / 10 > ASTEROID_SPAWN_RATE →
      (AsteroidField.update ⟨7 / 10⟩ (2 / 10) ⟨0, 40, 0, 1 / 2, 2⟩).1.spawn_timer = 0 ∧
      ∃ a : CircleShape,
        (AsteroidField.update ⟨7 / 10⟩ (2 / 10) ⟨0, 40, 0, 1 / 2, 2⟩).2 = [a] ∧
        (∃ k : ℕ, 1 ≤ k ∧ k ≤ ASTEROID_KINDS ∧ a.radius = ASTEROID_MIN_RADIUS * k) ∧
        40 ≤ a.velocity.norm ∧ a.velocity.norm ≤ 100) :=
  C7_spawn_update ⟨7 / 10⟩ (2 / 10) ⟨0, 40, 0, 1 / 2, 2⟩
    (by refine ⟨?_, ?_, ?_, ?_, ?_, ?_, ?_, ?_⟩ <;> norm_num [ASTEROID_KINDS])

/-- C8: the overlap test holds exactly when the Euclidean distance between
the centers is strictly below the sum of the radii; two circles whose
centers are 10 apart with radii summing to 15 overlap, and two circles whose
centers are 15 apart with radii summing to 15 — exactly touching — do not. -/
theorem C8_overlap_strict :
    (∀ a b : CircleShape,
        does_collide a b ↔
          distance_to a.position b.position < ((a.radius + b.radius : ℚ) : ℝ)) ∧
    does_collide ⟨⟨0, 0⟩, ⟨0, 0⟩, 7⟩ ⟨⟨10, 0⟩, ⟨0, 0⟩, 8⟩ ∧
    ¬ does_collide ⟨⟨0, 0⟩, ⟨0, 0⟩, 7⟩ ⟨⟨15, 0⟩, ⟨0, 0⟩, 8⟩ := by
  refine ⟨fun a b => Iff.rfl, ?_, ?_⟩
  · show distance_to ⟨0, 0⟩ ⟨10, 0⟩ < ((7 + 8 : ℚ) : ℝ)
    rw [distance_on_x 10 (by norm_num)]
    norm_num
  · show ¬ distance_to ⟨0, 0⟩ ⟨15, 0⟩ < ((7 + 8 : ℚ) : ℝ)
    rw [distance_on_x 15 (by norm_num)]
    norm_num

/-- C9: the overlap test is symmetric in the two entities. -/
theorem C9_overlap_symm (a b : CircleShape) : does_collide a b ↔ does_collide b a := by
  unfold does_collide
  rw [distance_to_comm, add_comm a.radius]

/-- C10: for every asteroid, shot and dt, `update(dt)` only moves the entity
to position + velocity * dt, keeping velocity and radius, and the per-frame
update phase over a population neither creates nor destroys entities. -/
theorem C10_update_effect (a s : CircleShape) (dt : ℚ) (as ss : List CircleShape) :
    Asteroid.update a dt =
      { position := a.position + a.velocity.smul (dt : ℝ),
        velocity := a.velocity, radius := a.radius } ∧
    Shot.update s dt =
      { position := s.position + s.velocity.smul (dt : ℝ),
        velocity := s.velocity, radius := s.radius } ∧
    (update_all_asteroids as dt).length = as.length ∧
    (update_all_shots ss dt).length = ss.length := by
  refine ⟨rfl, rfl, ?_, ?_⟩ <;> simp [update_all_asteroids, update_all_shots]

end Asteroids
